import Mathlib

/-!
Verification of the pov-cricket batting simulator
(`src/Game/src/scene/Game.ts`, `game2.ts`, `GameBackup.ts`).

The repository holds three incremental versions of the same `Game` class.
Where they agree, one Lean definition stands for all of them; where they
differ (flight-time clamp, bounce-redirect speed) each variant gets its own
definition, suffixed `_Game` (legacy `Game.ts`) or `_game2`
(`game2.ts` / `GameBackup.ts`, which are identical on the modelled code).

Numbers are embedded as exact rationals (`ℚ`); JavaScript floats carry
rounding that is outside the scope of these statements.  Square roots
(vector norms, `normalize`) are not rational, so functions of a norm take
the norm as an argument and the theorems characterise it by
`s * s = dot v v ∧ 0 ≤ s`.
-/

namespace PovCricket

/-- 3-vector over ℚ, mirroring Babylon's `Vector3` as used by the game code. -/
@[ext] structure Vec3 where
  x : ℚ
  y : ℚ
  z : ℚ
deriving DecidableEq

/-- `a.add(b)` -/
def vadd (a b : Vec3) : Vec3 := ⟨a.x + b.x, a.y + b.y, a.z + b.z⟩

/-- `a.subtract(b)` -/
def vsub (a b : Vec3) : Vec3 := ⟨a.x - b.x, a.y - b.y, a.z - b.z⟩

/-- `a.scale(k)` -/
def vscale (a : Vec3) (k : ℚ) : Vec3 := ⟨a.x * k, a.y * k, a.z * k⟩

/-- `Vector3.Dot(a, b)` -/
def dot3 (a b : Vec3) : ℚ := a.x * b.x + a.y * b.y + a.z * b.z

/-- `private clamp(v, min, max) { return Math.max(min, Math.min(max, v)); }`
(same helper in all three files). -/
def clamp (v mn mx : ℚ) : ℚ := max mn (min mx v)

theorem clamp_le_of_le (v mn mx : ℚ) (h : mn ≤ mx) : clamp v mn mx ≤ mx :=
  max_le h (min_le_left _ _)

theorem le_clamp (v mn mx : ℚ) : mn ≤ clamp v mn mx := le_max_left _ _

/-! ## Delivery generator: closed-form launch velocity (all three files)

`deliverBall` (Game.ts 435-442, game2.ts 1928-1935, GameBackup.ts 2330-2337):
```
const g = -9.81;
const toBounce = bouncePoint.subtract(release);
const vx = toBounce.x / t;
const vz = toBounce.z / t;
const vy = (toBounce.y - 0.5 * g * (t * t)) / t;
```
-/

/-- `const g = -9.81;` -/
def g : ℚ := -981 / 100

/-- The launch velocity solved by `deliverBall` for release point, bounce
point and flight time `t`. -/
def launchVelocity (release bouncePoint : Vec3) (t : ℚ) : Vec3 :=
  let toBounce := vsub bouncePoint release
  ⟨toBounce.x / t, (toBounce.y - 1 / 2 * g * (t * t)) / t, toBounce.z / t⟩

/-- Ideal no-drag integration of a projectile released at `release` with
velocity `v` after time `t`: `release + v*t + 0.5*g*t²*ŷ`. -/
def idealPosition (release v : Vec3) (t : ℚ) : Vec3 :=
  ⟨release.x + v.x * t, release.y + v.y * t + 1 / 2 * g * (t * t), release.z + v.z * t⟩

/-- C1: for every release point, bounce point and flight time `t > 0`, the
launch velocity solved by `deliverBall` makes the ideal (no-drag, exact
arithmetic) parabolic arc pass exactly through the bounce point at time `t`,
in all three coordinates. -/
theorem deliverBall_projectile_exact (release bouncePoint : Vec3) (t : ℚ)
    (ht : 0 < t) :
    idealPosition release (launchVelocity release bouncePoint t) t = bouncePoint := by
  have ht' : t ≠ 0 := ne_of_gt ht
  ext
  all_goals simp only [idealPosition, launchVelocity, vsub]
  all_goals field_simp
  all_goals ring

/-- Witness for C1 at a concrete input. -/
theorem deliverBall_projectile_exact_witness :
    (0 : ℚ) < 2 ∧
      idealPosition ⟨1, 3, -2⟩ (launchVelocity ⟨1, 3, -2⟩ ⟨5, 0, 7⟩ 2) 2 = ⟨5, 0, 7⟩ :=
  ⟨by norm_num, deliverBall_projectile_exact ⟨1, 3, -2⟩ ⟨5, 0, 7⟩ 2 (by norm_num)⟩

/-! ## Delivery generator: flight-time clamp

Game.ts 426-431:      `const t = this.clamp(dist / speed, 0.25, 1.35);`
GameBackup.ts 2326-2328: same bounds.
game2.ts 1924-1926:   `const t = this.clamp(dist / speed, 0.5, 0.35);`
(`clamp(v, min, max) = max(min, Math.min(max, v))`, so game2's swapped
bounds make its flight time constantly `0.5`.)
-/

/-- Flight time of `Game.ts` `deliverBall`. -/
def flightTime_Game (dist speed : ℚ) : ℚ := clamp (dist / speed) (1 / 4) (27 / 20)

/-- Flight time of `GameBackup.ts` `deliverBall`. -/
def flightTime_GameBackup (dist speed : ℚ) : ℚ := clamp (dist / speed) (1 / 4) (27 / 20)

/-- Flight time of `game2.ts` `deliverBall` (note the swapped clamp bounds
in the source: `clamp(dist / speed, 0.5, 0.35)`). -/
def flightTime_game2 (dist speed : ℚ) : ℚ := clamp (dist / speed) (1 / 2) (7 / 20)

/-- The `game2.ts` flight time is constantly `0.5` seconds. -/
theorem flightTime_game2_eq_half (dist speed : ℚ) : flightTime_game2 dist speed = 1 / 2 := by
  unfold flightTime_game2 clamp
  exact max_eq_left ((min_le_left _ _).trans (by norm_num))

/-- C2: whatever distance and speed are drawn, the flight time computed by
each version of the delivery generator lies in `[0.25, 1.35]` seconds
(for `game2.ts` it is degenerately the constant `0.5`, still inside the
interval). -/
theorem deliverBall_flightTime_bounds (dist speed : ℚ) :
    (1 / 4 ≤ flightTime_Game dist speed ∧ flightTime_Game dist speed ≤ 27 / 20) ∧
    (1 / 4 ≤ flightTime_GameBackup dist speed ∧ flightTime_GameBackup dist speed ≤ 27 / 20) ∧
    (1 / 4 ≤ flightTime_game2 dist speed ∧ flightTime_game2 dist speed ≤ 27 / 20) := by
  refine ⟨⟨le_clamp _ _ _, clamp_le_of_le _ _ _ (by norm_num)⟩,
          ⟨le_clamp _ _ _, clamp_le_of_le _ _ _ (by norm_num)⟩, ?_, ?_⟩ <;>
    rw [flightTime_game2_eq_half] <;> norm_num

/-! ## Pitch clamp (`clampPointToPitch`, game2.ts 690-705, GameBackup.ts 1128-1146)

`getPitchBasis` feeds this function normalized `forward`/`side` axes derived
from the authored anchors (the spec assumes, without enforcing, that the
authored axes are orthogonal and horizontal).  The function body after
destructuring the basis is embedded verbatim; the basis vectors enter as
parameters and the theorems carry the unit/orthogonal/horizontal facts that
`getPitchBasis` establishes for authored data as hypotheses. -/

/-- `clampPointToPitch(p, marginSide, marginLen)` given the destructured
pitch basis `{ S, forward, side, length, width }` and the surface height
`this.baseY`. -/
def clampPointToPitch (S forward side : Vec3) (length width baseY : ℚ)
    (p : Vec3) (marginSide marginLen : ℚ) : Vec3 :=
  let rel := vsub p S
  let u := dot3 rel forward
  let v := dot3 rel side
  let halfW := width * (1 / 2)
  let uClamped := clamp u marginLen (length - marginLen)
  let vClamped := clamp v (-halfW + marginSide) (halfW - marginSide)
  let out := vadd (vadd S (vscale forward uClamped)) (vscale side vClamped)
  { out with y := baseY + 1 / 200 }

/-- Pitch-local `u` coordinate of a world point (projection on `forward`
relative to `PitchStart`), as computed inside `clampPointToPitch`. -/
def localU (S forward : Vec3) (p : Vec3) : ℚ := dot3 (vsub p S) forward

/-- Pitch-local `v` coordinate of a world point (projection on `side`). -/
def localV (S side : Vec3) (p : Vec3) : ℚ := dot3 (vsub p S) side

/-- C3: for every input point and non-negative margins with
`marginLen ≤ length - marginLen` and `marginSide ≤ width/2`, the point
returned by `clampPointToPitch` has pitch-local coordinates
`u ∈ [marginLen, length - marginLen]` and
`v ∈ [-width/2 + marginSide, width/2 - marginSide]`, and its `y` equals the
fixed surface height `baseY + 0.005` — under the authored-basis facts that
`forward` and `side` are unit, orthogonal and horizontal.  Every generated
bounce point is passed through this function (with margins `0.08`/`0.12`),
hence lies in the pitch rectangle minus margins. -/
theorem clampPointToPitch_contains (S forward side : Vec3)
    (length width baseY : ℚ) (p : Vec3) (marginSide marginLen : ℚ)
    (hf : dot3 forward forward = 1) (hs : dot3 side side = 1)
    (hfs : dot3 forward side = 0) (hfy : forward.y = 0) (hsy : side.y = 0)
    (hmL : marginLen ≤ length - marginLen) (hmS : marginSide ≤ width * (1 / 2)) :
    (marginLen ≤
        localU S forward (clampPointToPitch S forward side length width baseY p marginSide marginLen) ∧
      localU S forward (clampPointToPitch S forward side length width baseY p marginSide marginLen) ≤
        length - marginLen) ∧
    (-(width * (1 / 2)) + marginSide ≤
        localV S side (clampPointToPitch S forward side length width baseY p marginSide marginLen) ∧
      localV S side (clampPointToPitch S forward side length width baseY p marginSide marginLen) ≤
        width * (1 / 2) - marginSide) ∧
    (clampPointToPitch S forward side length width baseY p marginSide marginLen).y =
      baseY + 1 / 200 := by
  have hfxz : forward.x * forward.x + forward.z * forward.z = 1 := by
    have h := hf; simp only [dot3] at h
    linear_combination h - forward.y * hfy
  have hsxz : side.x * side.x + side.z * side.z = 1 := by
    have h := hs; simp only [dot3] at h
    linear_combination h - side.y * hsy
  have hcross : forward.x * side.x + forward.z * side.z = 0 := by
    have h := hfs; simp only [dot3] at h
    linear_combination h - forward.y * hsy
  set uC := clamp (dot3 (vsub p S) forward) marginLen (length - marginLen) with huC
  set vC := clamp (dot3 (vsub p S) side)
      (-(width * (1 / 2)) + marginSide) (width * (1 / 2) - marginSide) with hvC
  have hout : clampPointToPitch S forward side length width baseY p marginSide marginLen =
      { x := S.x + forward.x * uC + side.x * vC,
        y := baseY + 1 / 200,
        z := S.z + forward.z * uC + side.z * vC } := by
    simp only [clampPointToPitch, vadd, vscale, vsub, huC, hvC, Vec3.mk.injEq]
  have hu : localU S forward
      (clampPointToPitch S forward side length width baseY p marginSide marginLen) = uC := by
    rw [hout]; simp only [localU, dot3, vsub]
    linear_combination uC * hfxz + vC * hcross + (baseY + 1 / 200 - S.y) * hfy
  have hv : localV S side
      (clampPointToPitch S forward side length width baseY p marginSide marginLen) = vC := by
    rw [hout]; simp only [localV, dot3, vsub]
    linear_combination uC * hcross + vC * hsxz + (baseY + 1 / 200 - S.y) * hsy
  refine ⟨?_, ?_, by rw [hout]⟩
  · rw [hu]; exact ⟨le_clamp _ _ _, clamp_le_of_le _ _ _ hmL⟩
  · rw [hv]
    exact ⟨le_clamp _ _ _, clamp_le_of_le _ _ _ (by linarith)⟩

/-- Witness for C3 at a concrete orthonormal horizontal basis and point. -/
theorem clampPointToPitch_contains_witness :
    (dot3 ⟨0, 0, 1⟩ ⟨0, 0, 1⟩ = 1 ∧ dot3 ⟨1, 0, 0⟩ ⟨1, 0, 0⟩ = 1 ∧
      dot3 (⟨0, 0, 1⟩ : Vec3) ⟨1, 0, 0⟩ = 0 ∧ (⟨0, 0, 1⟩ : Vec3).y = 0 ∧
      (⟨1, 0, 0⟩ : Vec3).y = 0 ∧ (3 / 25 : ℚ) ≤ 20 - 3 / 25 ∧
      (2 / 25 : ℚ) ≤ 3 * (1 / 2)) ∧
    ((3 / 25 ≤ localU ⟨0, 0, 0⟩ ⟨0, 0, 1⟩
          (clampPointToPitch ⟨0, 0, 0⟩ ⟨0, 0, 1⟩ ⟨1, 0, 0⟩ 20 3 0 ⟨50, 9, -4⟩ (2 / 25) (3 / 25)) ∧
        localU ⟨0, 0, 0⟩ ⟨0, 0, 1⟩
          (clampPointToPitch ⟨0, 0, 0⟩ ⟨0, 0, 1⟩ ⟨1, 0, 0⟩ 20 3 0 ⟨50, 9, -4⟩ (2 / 25) (3 / 25)) ≤
          20 - 3 / 25) ∧
      (-(3 * (1 / 2)) + 2 / 25 ≤ localV ⟨0, 0, 0⟩ ⟨1, 0, 0⟩
          (clampPointToPitch ⟨0, 0, 0⟩ ⟨0, 0, 1⟩ ⟨1, 0, 0⟩ 20 3 0 ⟨50, 9, -4⟩ (2 / 25) (3 / 25)) ∧
        localV ⟨0, 0, 0⟩ ⟨1, 0, 0⟩
          (clampPointToPitch ⟨0, 0, 0⟩ ⟨0, 0, 1⟩ ⟨1, 0, 0⟩ 20 3 0 ⟨50, 9, -4⟩ (2 / 25) (3 / 25)) ≤
          3 * (1 / 2) - 2 / 25) ∧
      (clampPointToPitch ⟨0, 0, 0⟩ ⟨0, 0, 1⟩ ⟨1, 0, 0⟩ 20 3 0 ⟨50, 9, -4⟩ (2 / 25) (3 / 25)).y =
        0 + 1 / 200) :=
  ⟨⟨by norm_num [dot3], by norm_num [dot3], by norm_num [dot3], rfl, rfl,
      by norm_num, by norm_num⟩,
   clampPointToPitch_contains ⟨0, 0, 0⟩ ⟨0, 0, 1⟩ ⟨1, 0, 0⟩ 20 3 0 ⟨50, 9, -4⟩
     (2 / 25) (3 / 25) (by norm_num [dot3]) (by norm_num [dot3]) (by norm_num [dot3])
     rfl rfl (by norm_num) (by norm_num)⟩

/-! ## Bat contact: the six gate (game2.ts 1742-1751, GameBackup.ts 2143-2152)

```
const isSixCandidate =
  timingScore >= this.SIX_TIMING_MIN &&
  alignFactor >= this.SIX_ALIGN_MIN &&
  swingSpeed >= this.SIX_SWING_SPEED_MIN &&
  sweet > 0.7;

if (!isSixCandidate) {
  loft *= 0.55;
  power *= 0.85;
}
```
with `SIX_TIMING_MIN = 0.88`, `SIX_ALIGN_MIN = 0.75`,
`SIX_SWING_SPEED_MIN = 8.0` (game2.ts 125-127).  Note the sweet-spot
comparison is strict (`>`), unlike the other three (`>=`). -/

def SIX_TIMING_MIN : ℚ := 88 / 100

def SIX_ALIGN_MIN : ℚ := 75 / 100

def SIX_SWING_SPEED_MIN : ℚ := 8

/-- The six-candidate predicate of `setupBat3D`. -/
def isSixCandidate (timingScore alignFactor swingSpeed sweet : ℚ) : Bool :=
  decide (SIX_TIMING_MIN ≤ timingScore) && decide (SIX_ALIGN_MIN ≤ alignFactor) &&
    decide (SIX_SWING_SPEED_MIN ≤ swingSpeed) && decide (7 / 10 < sweet)

/-- The six-gate step of `setupBat3D`: returns the (power, loft) pair after
the gate, applying the sub-threshold penalty multipliers
(`power *= 0.85`, `loft *= 0.55`) unless the contact is a six candidate. -/
def applySixGate (power loft timingScore alignFactor swingSpeed sweet : ℚ) : ℚ × ℚ :=
  if isSixCandidate timingScore alignFactor swingSpeed sweet then (power, loft)
  else (power * (85 / 100), loft * (55 / 100))

/-- C4 counterexample: with all four factors exactly at the claimed
thresholds (`timingScore = 0.88`, `alignFactor = 0.75`, `swingSpeed = 8`,
`sweet = 0.7`) — "at or above" each threshold — the code still applies the
penalty multipliers, because the sweet-spot comparison in the source is
strict (`sweet > 0.7`). -/
theorem sixGate_at_thresholds_penalized :
    (SIX_TIMING_MIN ≤ 88 / 100 ∧ SIX_ALIGN_MIN ≤ 75 / 100 ∧
      SIX_SWING_SPEED_MIN ≤ 8 ∧ (7 / 10 : ℚ) ≤ 7 / 10) ∧
    applySixGate 1 1 (88 / 100) (75 / 100) 8 (7 / 10) = (85 / 100, 55 / 100) ∧
    ((85 / 100 : ℚ), (55 / 100 : ℚ)) ≠ (1, 1) := by
  refine ⟨⟨?_, ?_, ?_, ?_⟩, ?_, ?_⟩
  · norm_num [SIX_TIMING_MIN]
  · norm_num [SIX_ALIGN_MIN]
  · norm_num [SIX_SWING_SPEED_MIN]
  · norm_num
  · norm_num [applySixGate, isSixCandidate, SIX_TIMING_MIN, SIX_ALIGN_MIN, SIX_SWING_SPEED_MIN]
  · norm_num [Prod.ext_iff]

/-- C4 (amended): the penalty multipliers are skipped exactly when
`timingScore ≥ 0.88`, `alignFactor ≥ 0.75`, `swingSpeed ≥ 8.0` and the
sweet-spot factor is strictly greater than `0.7`; if `timingScore < 0.88`,
`alignFactor < 0.75`, `swingSpeed < 8.0` or `sweet ≤ 0.7`, the penalty
(`loft * 0.55`, `power * 0.85`) is applied. -/
theorem sixGate_correctness (power loft timingScore alignFactor swingSpeed sweet : ℚ) :
    ((SIX_TIMING_MIN ≤ timingScore ∧ SIX_ALIGN_MIN ≤ alignFactor ∧
        SIX_SWING_SPEED_MIN ≤ swingSpeed ∧ 7 / 10 < sweet) →
      applySixGate power loft timingScore alignFactor swingSpeed sweet = (power, loft)) ∧
    ((timingScore < SIX_TIMING_MIN ∨ alignFactor < SIX_ALIGN_MIN ∨
        swingSpeed < SIX_SWING_SPEED_MIN ∨ sweet ≤ 7 / 10) →
      applySixGate power loft timingScore alignFactor swingSpeed sweet =
        (power * (85 / 100), loft * (55 / 100))) := by
  constructor
  · rintro ⟨h1, h2, h3, h4⟩
    simp [applySixGate, isSixCandidate, h1, h2, h3, h4]
  · intro h
    have hc : isSixCandidate timingScore alignFactor swingSpeed sweet = false := by
      rcases h with h | h | h | h
      · simp [isSixCandidate, decide_eq_false (not_le.mpr h)]
      · simp [isSixCandidate, decide_eq_false (not_le.mpr h)]
      · simp [isSixCandidate, decide_eq_false (not_le.mpr h)]
      · simp [isSixCandidate, decide_eq_false (not_lt.mpr h)]
    simp [applySixGate, hc]

/-- Witness for C4's amended theorem at concrete inputs (both directions). -/
theorem sixGate_correctness_witness :
    ((SIX_TIMING_MIN ≤ 9 / 10 ∧ SIX_ALIGN_MIN ≤ 8 / 10 ∧
        SIX_SWING_SPEED_MIN ≤ 9 ∧ (7 / 10 : ℚ) < 8 / 10) ∧
      applySixGate 2 3 (9 / 10) (8 / 10) 9 (8 / 10) = (2, 3)) ∧
    (((1 / 2 : ℚ) < SIX_TIMING_MIN ∨ (8 / 10 : ℚ) < SIX_ALIGN_MIN ∨
        (9 : ℚ) < SIX_SWING_SPEED_MIN ∨ (8 / 10 : ℚ) ≤ 7 / 10) ∧
      applySixGate 2 3 (1 / 2) (8 / 10) 9 (8 / 10) = (2 * (85 / 100), 3 * (55 / 100))) :=
  ⟨⟨⟨by norm_num [SIX_TIMING_MIN], by norm_num [SIX_ALIGN_MIN],
      by norm_num [SIX_SWING_SPEED_MIN], by norm_num⟩,
    (sixGate_correctness 2 3 (9 / 10) (8 / 10) 9 (8 / 10)).1
      ⟨by norm_num [SIX_TIMING_MIN], by norm_num [SIX_ALIGN_MIN],
       by norm_num [SIX_SWING_SPEED_MIN], by norm_num⟩⟩,
   ⟨Or.inl (by norm_num [SIX_TIMING_MIN]),
    (sixGate_correctness 2 3 (1 / 2) (8 / 10) 9 (8 / 10)).2
      (Or.inl (by norm_num [SIX_TIMING_MIN]))⟩⟩

/-! ## Flight controller: first-bounce redirect

game2.ts 1995-2008 / GameBackup.ts 2407-2419:
```
if (!this.ballWasHit) {
  if (!bounced && age >= t && p.y <= pitchTouchY) {
    bounced = true;
    body.applyImpulse(pitchSide.scale(seamKick * 0.25), p);
    const toward = wicket.subtract(p).normalize();
    const v = body.getLinearVelocity();
    const speed2 = Math.max(v.length() * 0.65, 6);
    const newV = toward.scale(speed2);
    newV.y = Math.max(v.y, 1.0);
    body.setLinearVelocity(newV);
  }
  ...
```
Game.ts 470-485 is the same except `const speed2 = Math.max(v.length(), 18);`
and it has no bat, hence no `ballWasHit` suppression.

`v.length()` and `normalize()` take square roots, which are not rational:
the redirect functions therefore receive the unit vector `toward` and the
pre-bounce speed `preSpeed` as arguments, and the theorems characterise
them by `preSpeed² = dot v v`, `0 ≤ preSpeed` and
`wicket - p = toward * d`, `d² = dot (wicket-p) (wicket-p)`, `0 < d`. -/

/-- Post-bounce velocity written by `game2.ts`/`GameBackup.ts`: toward the
wicket at speed `max(0.65 * preSpeed, 6)`, vertical component
`max(v.y, 1.0)`. -/
def bounceRedirect_game2 (toward : Vec3) (preSpeed : ℚ) (v : Vec3) : Vec3 :=
  let speed2 := max (preSpeed * (65 / 100)) 6
  let newV := vscale toward speed2
  { newV with y := max v.y 1 }

/-- Post-bounce velocity written by legacy `Game.ts`: toward the wicket at
speed `max(preSpeed, 18)`, vertical component `max(v.y, 1.0)`. -/
def bounceRedirect_Game (toward : Vec3) (preSpeed : ℚ) (v : Vec3) : Vec3 :=
  let speed2 := max preSpeed 18
  let newV := vscale toward speed2
  { newV with y := max v.y 1 }

/-- Per-delivery flight-controller state for the bounce transition:
the local `bounced` flag and the ball's linear velocity. -/
structure FlightState where
  bounced : Bool
  vel : Vec3
deriving DecidableEq

/-- One frame of the `game2.ts`/`GameBackup.ts` bounce-transition branch.
`t` is the nominal flight time, `pitchTouchY = baseY + ballRadius * 1.05`
the touch threshold; `toward`/`preSpeed` stand for
`wicket.subtract(p).normalize()` and `v.length()`. -/
def bounceStep_game2 (t baseY ballRadius : ℚ) (age : ℚ) (p : Vec3)
    (toward : Vec3) (preSpeed : ℚ) (ballWasHit : Bool) (st : FlightState) : FlightState :=
  if !ballWasHit && !st.bounced && decide (t ≤ age) &&
      decide (p.y ≤ baseY + ballRadius * (21 / 20)) then
    { bounced := true, vel := bounceRedirect_game2 toward preSpeed st.vel }
  else st

/-- One frame of the legacy `Game.ts` bounce-transition branch (no
`ballWasHit` flag exists in that version). -/
def bounceStep_Game (t baseY ballRadius : ℚ) (age : ℚ) (p : Vec3)
    (toward : Vec3) (preSpeed : ℚ) (st : FlightState) : FlightState :=
  if !st.bounced && decide (t ≤ age) && decide (p.y ≤ baseY + ballRadius * (21 / 20)) then
    { bounced := true, vel := bounceRedirect_Game toward preSpeed st.vel }
  else st

/-- C6 counterexample: the legacy `Game.ts` bounce redirect (cited by the
claim) does not use `max(0.65 * preSpeed, 6)`.  Concretely, with pre-bounce
velocity `(0, -12, 16)` (speed 20, since `20² = dot v v`) and unit direction
`(0, 0, 1)` toward the wicket, on a triggering frame (`age ≥ t`, height at
the threshold) `Game.ts` writes forward speed `max(20, 18) = 20`, whereas
the claimed formula gives `max(0.65 * 20, 6) = 13`. -/
theorem bounceRedirect_Game_ne_claimed :
    (20 : ℚ) * 20 = dot3 ⟨0, -12, 16⟩ ⟨0, -12, 16⟩ ∧
    vsub ⟨3, 1, 7⟩ ⟨3, 1, 2⟩ = vscale ⟨0, 0, 1⟩ 5 ∧
    bounceStep_Game (1 / 2) 0 (3 / 250) (1 / 2) ⟨3, 0, 2⟩ ⟨0, 0, 1⟩ 20
        { bounced := false, vel := ⟨0, -12, 16⟩ } =
      { bounced := true, vel := ⟨0, 1, 20⟩ } ∧
    (bounceRedirect_game2 ⟨0, 0, 1⟩ 20 ⟨0, -12, 16⟩).z = 13 ∧
    (20 : ℚ) ≠ 13 := by
  refine ⟨by norm_num [dot3], by norm_num [vsub, vscale, Vec3.mk.injEq], ?_, ?_, by norm_num⟩
  · have h1 : ((1 : ℚ) / 2 ≤ 1 / 2) := le_refl _
    have h2 : ((0 : ℚ) ≤ 0 + 3 / 250 * (21 / 20)) := by norm_num
    simp [bounceStep_Game, bounceRedirect_Game, vscale, decide_eq_true h1, decide_eq_true h2]
    norm_num [Vec3.mk.injEq, max_eq_left, max_eq_right]
  · norm_num [bounceRedirect_game2, vscale]

/-- C6 (amended): on the first frame where an un-hit ball's age reaches the
nominal flight time `t` and its height is at or below the touch threshold
`baseY + ballRadius * 1.05`, the flight controller marks the delivery
bounced and overrides the velocity toward the wicket target — in
`game2.ts`/`GameBackup.ts` at speed `max(0.65 * preSpeed, 6)`, in legacy
`Game.ts` at speed `max(preSpeed, 18)` — with vertical component
`max(previous vy, 1.0)`; in both versions the redirect happens at most once
per delivery (`bounced` flag), and in `game2.ts`/`GameBackup.ts` never after
the ball has been hit. -/
theorem bounceStep_redirect (t baseY ballRadius age preSpeed d : ℚ)
    (p toward wicket : Vec3) (st : FlightState)
    (hsp : preSpeed * preSpeed = dot3 st.vel st.vel) (hsp0 : 0 ≤ preSpeed)
    (htw : vsub wicket p = vscale toward d)
    (hd : d * d = dot3 (vsub wicket p) (vsub wicket p)) (hd0 : 0 < d)
    (htrig : t ≤ age) (hy : p.y ≤ baseY + ballRadius * (21 / 20))
    (hnb : st.bounced = false) :
    (bounceStep_game2 t baseY ballRadius age p toward preSpeed false st =
        { bounced := true,
          vel := ⟨toward.x * max (preSpeed * (65 / 100)) 6, max st.vel.y 1,
                  toward.z * max (preSpeed * (65 / 100)) 6⟩ } ∧
      bounceStep_Game t baseY ballRadius age p toward preSpeed st =
        { bounced := true,
          vel := ⟨toward.x * max preSpeed 18, max st.vel.y 1,
                  toward.z * max preSpeed 18⟩ }) ∧
    (∀ (st' : FlightState) (age' : ℚ) (p' toward' : Vec3) (preSpeed' : ℚ) (hit' : Bool),
      st'.bounced = true →
        bounceStep_game2 t baseY ballRadius age' p' toward' preSpeed' hit' st' = st' ∧
        bounceStep_Game t baseY ballRadius age' p' toward' preSpeed' st' = st') ∧
    (∀ (st' : FlightState) (age' : ℚ) (p' toward' : Vec3) (preSpeed' : ℚ),
      bounceStep_game2 t baseY ballRadius age' p' toward' preSpeed' true st' = st') := by
  refine ⟨⟨?_, ?_⟩, ?_, ?_⟩
  · simp [bounceStep_game2, hnb, decide_eq_true htrig, decide_eq_true hy,
      bounceRedirect_game2, vscale]
  · simp [bounceStep_Game, hnb, decide_eq_true htrig, decide_eq_true hy,
      bounceRedirect_Game, vscale]
  · intro st' age' p' toward' preSpeed' hit' hb
    constructor
    · simp [bounceStep_game2, hb]
    · simp [bounceStep_Game, hb]
  · intro st' age' p' toward' preSpeed'
    simp [bounceStep_game2]

/-- Witness for C6's amended theorem at concrete inputs. -/
theorem bounceStep_redirect_witness :
    ((20 : ℚ) * 20 = dot3 ⟨0, -12, 16⟩ ⟨0, -12, 16⟩ ∧ (0 : ℚ) ≤ 20 ∧
      vsub ⟨3, 0, 7⟩ ⟨3, 0, 2⟩ = vscale ⟨0, 0, 1⟩ 5 ∧
      (5 : ℚ) * 5 = dot3 (vsub ⟨3, 0, 7⟩ ⟨3, 0, 2⟩) (vsub ⟨3, 0, 7⟩ ⟨3, 0, 2⟩) ∧
      (0 : ℚ) < 5 ∧ (1 / 2 : ℚ) ≤ 1 / 2 ∧
      ((⟨3, 0, 2⟩ : Vec3)).y ≤ 0 + 3 / 250 * (21 / 20) ∧
      (FlightState.mk false ⟨0, -12, 16⟩).bounced = false) ∧
    bounceStep_game2 (1 / 2) 0 (3 / 250) (1 / 2) ⟨3, 0, 2⟩ ⟨0, 0, 1⟩ 20 false
        { bounced := false, vel := ⟨0, -12, 16⟩ } =
      { bounced := true,
        vel := ⟨0 * max (20 * (65 / 100)) 6, max (-12 : ℚ) 1,
                1 * max (20 * (65 / 100)) 6⟩ } :=
  ⟨⟨by norm_num [dot3], by norm_num, by norm_num [vsub, vscale, Vec3.mk.injEq],
    by norm_num [dot3, vsub], by norm_num, le_refl _, by norm_num, rfl⟩,
   ((bounceStep_redirect (1 / 2) 0 (3 / 250) (1 / 2) 20 5 ⟨3, 0, 2⟩ ⟨0, 0, 1⟩ ⟨3, 0, 7⟩
      { bounced := false, vel := ⟨0, -12, 16⟩ }
      (by norm_num [dot3]) (by norm_num)
      (by norm_num [vsub, vscale, Vec3.mk.injEq])
      (by norm_num [dot3, vsub]) (by norm_num)
      (le_refl _) (by norm_num) rfl).1).1⟩

/-! ## Delivery/scoring state machine (game2.ts `deliverBall` observer,
GameBackup.ts identical)

The per-frame ball observer (game2.ts 1949-2060) is embedded as a function
of the scoring-relevant state.  Physics-only writes (swing impulse, seam
kick, bounce redirect, skid floor — modelled separately above) do not touch
the scoring state and are omitted here.  `checkWicketHit` queries the
physics engine's bounding spheres and enters as the per-frame input
`wicketHit`; positions and the velocity's `y` component are per-frame
inputs read from the physics body. -/

/-- Scoring-relevant fields of the `Game` object, plus `observerRemoved`
(true when the per-delivery ball observer has been deregistered, i.e. no
live ball is being ticked) and `bornAt` (spawn timestamp of the live
ball). -/
structure ScoreState where
  gameOver : Bool
  runs : ℕ
  balls : ℕ
  hits : ℕ
  misses : ℕ
  boundaryScored : Bool
  prevInsideBoundary : Bool
  touchedGroundSinceHit : Bool
  wasHitThisDelivery : Bool
  observerRemoved : Bool
  lastHitAt : ℚ
  bornAt : ℚ
  hitMinY : Option ℚ
deriving DecidableEq

/-- Static per-match parameters: boundary circle (centre XZ, radius and
its `Number.isFinite` status), pitch surface height and ball radius. -/
structure ScoreParams where
  centerX : ℚ
  centerZ : ℚ
  boundaryRadius : ℚ
  radiusFinite : Bool
  baseY : ℚ
  ballRadius : ℚ
deriving DecidableEq

/-- Per-frame inputs read from the engine: clock, ball position, vertical
velocity, and the result of `checkWicketHit`. -/
structure Frame where
  nowMs : ℚ
  p : Vec3
  vy : ℚ
  wicketHit : Bool
deriving DecidableEq

/-- Scoring events, used to count boundary and terminal-run credits. -/
inductive ScoreEvent where
  | boundary (n : ℕ)
  | terminalRun
deriving DecidableEq

/-- `isInsideBoundary(p)` (game2.ts 1201-1206): vacuously true when the
radius is zero (JS falsy) or non-finite, else a disc test in XZ. -/
def isInsideBoundary (P : ScoreParams) (p : Vec3) : Bool :=
  if P.boundaryRadius = 0 || !P.radiusFinite then true
  else
    decide ((p.x - P.centerX) * (p.x - P.centerX) + (p.z - P.centerZ) * (p.z - P.centerZ) ≤
      P.boundaryRadius * P.boundaryRadius)

/-- `addRuns(amount, reason)` (game2.ts 1081-1089): no-op once the game is
over, otherwise adds to the runs counter. -/
def addRuns (amount : ℕ) (st : ScoreState) : ScoreState :=
  if st.gameOver then st else { st with runs := st.runs + amount }

/-- `setOut(reason)` (game2.ts 1091-1107): sets game over and removes the
ball observer. -/
def setOut (st : ScoreState) : ScoreState :=
  if st.gameOver then st else { st with gameOver := true, observerRemoved := true }

/-- `Math.min(this.hitMinY, p.y)` with `hitMinY` initialised to
`Number.POSITIVE_INFINITY` (modelled as `none`). -/
def updateHitMinY : Option ℚ → ℚ → ℚ
  | none, y => y
  | some m, y => min m y

/-- Ground-touch tracking after a hit (game2.ts 1963-1978): updates
`hitMinY` and, after the 220 ms grace period, sets `touchedGroundSinceHit`
when the ball is near the ground, descending, and has dipped low. -/
def groundFragment (P : ScoreParams) (st : ScoreState) (f : Frame) : ScoreState :=
  if st.wasHitThisDelivery then
    let sinceHit := f.nowMs - st.lastHitAt
    let newMin : ℚ := updateHitMinY st.hitMinY f.p.y
    let st1 := { st with hitMinY := some newMin }
    if decide (220 < sinceHit) then
      let touchLimit := P.baseY + P.ballRadius * (21 / 20) + 1 / 400
      let nearGround := decide (f.p.y ≤ touchLimit)
      let descending := decide (f.vy ≤ 3 / 20)
      let dippedLow := decide (newMin ≤ touchLimit)
      if nearGround && descending && dippedLow then
        { st1 with touchedGroundSinceHit := true }
      else st1
    else st1
  else st

/-- Boundary-crossing check (game2.ts 1980-1989): on an inside-to-outside
transition of the boundary circle, awards 6 if hit and airborne since the
hit, else 4, and latches `boundaryScored`. -/
def boundaryFragment (P : ScoreParams) (st : ScoreState) (p : Vec3) :
    ScoreState × List ScoreEvent :=
  if !st.boundaryScored && decide (1 / 100 < P.boundaryRadius) then
    let inside := isInsideBoundary P p
    if st.prevInsideBoundary && !inside then
      let n := if st.wasHitThisDelivery && !st.touchedGroundSinceHit then 6 else 4
      (addRuns n { st with boundaryScored := true, prevInsideBoundary := inside },
        [ScoreEvent.boundary n])
    else ({ st with prevInsideBoundary := inside }, [])
  else (st, [])

/-- Terminal check (game2.ts 2048-2059): on timeout (8 s) or fall-through
(`y < baseY - 5`), credits the single "ran it out" run when the ball was
hit and no boundary was scored, then removes the observer and disposes the
ball. -/
def terminalFragment (P : ScoreParams) (st : ScoreState) (age : ℚ) (p : Vec3) :
    ScoreState × List ScoreEvent :=
  if decide (8 < age) || decide (p.y < P.baseY - 5) then
    let r : ScoreState × List ScoreEvent :=
      if !st.gameOver && st.wasHitThisDelivery && !st.boundaryScored then
        (addRuns 1 st, [ScoreEvent.terminalRun])
      else (st, [])
    ({ r.1 with observerRemoved := true }, r.2)
  else (st, [])

/-- One frame of the ball observer (game2.ts 1949-2060), restricted to the
scoring state.  Fragments run in source order: wicket check, ground-touch
tracking, boundary check, terminal check. -/
def deliveryTick (P : ScoreParams) (st : ScoreState) (f : Frame) :
    ScoreState × List ScoreEvent :=
  if st.observerRemoved then (st, [])
  else if st.gameOver then (st, [])
  else
    let age := (f.nowMs - st.bornAt) / 1000
    if decide (1 / 4 < age) && f.wicketHit then (setOut st, [])
    else
      let st1 := groundFragment P st f
      let b := boundaryFragment P st1 f.p
      let tr := terminalFragment P b.1 age f.p
      (tr.1, b.2 ++ tr.2)

/-- Bat-contact resolution as it affects the scoring state
(game2.ts 1685-1705): first hit of the delivery bumps `hits`, and hit
tracking is rearmed.  Gated on `gameOver` like the whole bat observer. -/
def applyHitContact (now : ℚ) (st : ScoreState) : ScoreState :=
  if st.gameOver then st
  else
    { st with
      hits := if st.wasHitThisDelivery then st.hits else st.hits + 1,
      wasHitThisDelivery := true,
      lastHitAt := now,
      hitMinY := none,
      touchedGroundSinceHit := false }

/-- `deliverBall` entry (game2.ts 1842-1908) restricted to the scoring
state: disposes the previous ball/observer, resets the per-delivery flags,
bumps `balls`, and seeds `prevInsideBoundary` from the release position. -/
def deliverReset (P : ScoreParams) (now : ℚ) (release : Vec3) (st : ScoreState) : ScoreState :=
  if st.gameOver then st
  else
    { st with
      observerRemoved := false,
      wasHitThisDelivery := false,
      touchedGroundSinceHit := false,
      boundaryScored := false,
      prevInsideBoundary := isInsideBoundary P release,
      lastHitAt := 0,
      hitMinY := none,
      balls := st.balls + 1,
      bornAt := now }

/-- `resetGame()` (game2.ts 1048-1079): zeroes the match counters and all
per-delivery flags, removes the ball observer. -/
def resetGame (st : ScoreState) : ScoreState :=
  { gameOver := false, runs := 0, balls := 0, hits := 0, misses := 0,
    boundaryScored := false, prevInsideBoundary := true,
    touchedGroundSinceHit := false, wasHitThisDelivery := false,
    observerRemoved := true, lastHitAt := 0, bornAt := st.bornAt, hitMinY := none }

/-- The operations that mutate the scoring state during a match. -/
inductive MatchOp where
  | frame (f : Frame)
  | hitContact (now : ℚ)
  | deliver (now : ℚ) (release : Vec3)
  | reset
deriving DecidableEq

def MatchOp.isReset : MatchOp → Bool
  | MatchOp.reset => true
  | _ => false

def MatchOp.isDeliver : MatchOp → Bool
  | MatchOp.deliver _ _ => true
  | _ => false

/-- One scoring-machine step with its emitted score events. -/
def matchStep (P : ScoreParams) (st : ScoreState) : MatchOp → ScoreState × List ScoreEvent
  | MatchOp.frame f => deliveryTick P st f
  | MatchOp.hitContact now => (applyHitContact now st, [])
  | MatchOp.deliver now release => (deliverReset P now release st, [])
  | MatchOp.reset => (resetGame st, [])

/-- Run a list of operations, concatenating the emitted events. -/
def matchRun (P : ScoreParams) (st : ScoreState) : List MatchOp → ScoreState × List ScoreEvent
  | [] => (st, [])
  | op :: rest =>
    let s := matchStep P st op
    let r := matchRun P s.1 rest
    (r.1, s.2 ++ r.2)

def isBoundaryEvent : ScoreEvent → Bool
  | ScoreEvent.boundary _ => true
  | ScoreEvent.terminalRun => false

def isTerminalEvent : ScoreEvent → Bool
  | ScoreEvent.boundary _ => false
  | ScoreEvent.terminalRun => true

/-! ### Fragment lemmas -/

theorem groundFragment_preserves (P : ScoreParams) (st : ScoreState) (f : Frame) :
    (groundFragment P st f).gameOver = st.gameOver ∧
    (groundFragment P st f).runs = st.runs ∧
    (groundFragment P st f).boundaryScored = st.boundaryScored ∧
    (groundFragment P st f).prevInsideBoundary = st.prevInsideBoundary ∧
    (groundFragment P st f).wasHitThisDelivery = st.wasHitThisDelivery ∧
    (groundFragment P st f).observerRemoved = st.observerRemoved := by
  unfold groundFragment
  split
  · dsimp only
    split
    · split <;> simp
    · simp
  · simp

theorem addRuns_preserves (n : ℕ) (st : ScoreState) :
    (addRuns n st).gameOver = st.gameOver ∧
    (addRuns n st).boundaryScored = st.boundaryScored ∧
    (addRuns n st).prevInsideBoundary = st.prevInsideBoundary ∧
    (addRuns n st).observerRemoved = st.observerRemoved := by
  unfold addRuns; split <;> simp

theorem addRuns_runs_of_live (n : ℕ) (st : ScoreState) (h : st.gameOver = false) :
    (addRuns n st).runs = st.runs + n := by
  simp [addRuns, h]

theorem boundaryFragment_of_scored (P : ScoreParams) (st : ScoreState) (p : Vec3)
    (h : st.boundaryScored = true) : boundaryFragment P st p = (st, []) := by
  simp [boundaryFragment, h]

theorem terminalFragment_of_scored (P : ScoreParams) (st : ScoreState) (age : ℚ) (p : Vec3)
    (h : st.boundaryScored = true) :
    (terminalFragment P st age p).1.runs = st.runs ∧
    (terminalFragment P st age p).1.boundaryScored = st.boundaryScored ∧
    (terminalFragment P st age p).2 = [] := by
  unfold terminalFragment
  split
  · simp [h]
  · simp

/-- C5: on a per-frame tick of a live, un-out delivery where the ball
position transitions from inside the boundary circle to outside it
(`prevInsideBoundary` true, current position outside, no boundary yet
scored, usable boundary radius, no wicket hit this frame), the scoring
machine awards exactly 6 runs if the ball was hit this delivery and has
not touched the ground since the hit (as tracked through this frame's
ground check), and exactly 4 runs otherwise; it latches `boundaryScored`,
emits exactly one boundary event, and any tick entered with
`boundaryScored` already set skips the boundary check entirely, so at most
one boundary award is issued per delivery. -/
theorem boundaryCrossing_award (P : ScoreParams) (st : ScoreState) (f : Frame)
    (hobs : st.observerRemoved = false) (hgo : st.gameOver = false)
    (hwk : f.wicketHit = false) (hbs : st.boundaryScored = false)
    (hr : 1 / 100 < P.boundaryRadius) (hprev : st.prevInsideBoundary = true)
    (hout : isInsideBoundary P f.p = false) :
    (deliveryTick P st f).1.runs =
      st.runs + (if (groundFragment P st f).wasHitThisDelivery &&
          !(groundFragment P st f).touchedGroundSinceHit then 6 else 4) ∧
    (deliveryTick P st f).1.boundaryScored = true ∧
    (deliveryTick P st f).2.countP isBoundaryEvent = 1 ∧
    (∀ (st' : ScoreState) (p' : Vec3), st'.boundaryScored = true →
      boundaryFragment P st' p' = (st', [])) := by
  obtain ⟨hg1, hg2, hg3, hg4, hg5, hg6⟩ := groundFragment_preserves P st f
  have hb : boundaryFragment P (groundFragment P st f) f.p =
      (addRuns (if (groundFragment P st f).wasHitThisDelivery &&
          !(groundFragment P st f).touchedGroundSinceHit then 6 else 4)
        { groundFragment P st f with boundaryScored := true, prevInsideBoundary := isInsideBoundary P f.p },
        [ScoreEvent.boundary (if (groundFragment P st f).wasHitThisDelivery &&
          !(groundFragment P st f).touchedGroundSinceHit then 6 else 4)]) := by
    have hr' : decide ((1 : ℚ) / 100 < P.boundaryRadius) = true := decide_eq_true hr
    unfold boundaryFragment
    dsimp only
    rw [hg3, hbs, hg4, hprev, hout, hr']
    simp
  have hbgo : (boundaryFragment P (groundFragment P st f) f.p).1.gameOver = false := by
    rw [hb]; simp [addRuns, hg1, hgo]
  have hbsc : (boundaryFragment P (groundFragment P st f) f.p).1.boundaryScored = true := by
    rw [hb]; simp [addRuns, hg1, hgo]
  have hbruns : (boundaryFragment P (groundFragment P st f) f.p).1.runs =
      st.runs + (if (groundFragment P st f).wasHitThisDelivery &&
        !(groundFragment P st f).touchedGroundSinceHit then 6 else 4) := by
    rw [hb]; simp [addRuns, hg1, hgo, hg2]
  have htick : deliveryTick P st f =
      ((terminalFragment P (boundaryFragment P (groundFragment P st f) f.p).1
          ((f.nowMs - st.bornAt) / 1000) f.p).1,
        (boundaryFragment P (groundFragment P st f) f.p).2 ++
          (terminalFragment P (boundaryFragment P (groundFragment P st f) f.p).1
            ((f.nowMs - st.bornAt) / 1000) f.p).2) := by
    rw [deliveryTick]
    rw [hobs, hgo, hwk]
    simp
  obtain ⟨ht1, ht2, ht3⟩ := terminalFragment_of_scored P
    (boundaryFragment P (groundFragment P st f) f.p).1 ((f.nowMs - st.bornAt) / 1000) f.p hbsc
  refine ⟨?_, ?_, ?_, fun st' p' h => boundaryFragment_of_scored P st' p' h⟩
  · rw [htick]; simp only [ht1, hbruns]
  · rw [htick]; simp only [ht2, hbsc]
  · rw [htick]
    simp only [ht3, List.append_nil]
    rw [hb]
    simp [isBoundaryEvent, List.countP_cons, List.countP_nil]

/-- Witness for C5 at concrete inputs: boundary circle of radius 60 at the
origin, ball crossing to `x = 100` on a frame 1 s after release, ball not
hit this delivery, so 4 runs are credited. -/
theorem boundaryCrossing_award_witness :
    ((ScoreState.mk false 0 1 0 0 false true false false false 0 0 none).observerRemoved
        = false ∧
      (ScoreState.mk false 0 1 0 0 false true false false false 0 0 none).gameOver = false ∧
      (Frame.mk 1000 ⟨100, 1, 0⟩ 0 false).wicketHit = false ∧
      (ScoreState.mk false 0 1 0 0 false true false false false 0 0 none).boundaryScored
        = false ∧
      (1 / 100 : ℚ) < (ScoreParams.mk 0 0 60 true 0 (3 / 250)).boundaryRadius ∧
      (ScoreState.mk false 0 1 0 0 false true false false false 0 0 none).prevInsideBoundary
        = true ∧
      isInsideBoundary (ScoreParams.mk 0 0 60 true 0 (3 / 250)) ⟨100, 1, 0⟩ = false) ∧
    (deliveryTick (ScoreParams.mk 0 0 60 true 0 (3 / 250))
        (ScoreState.mk false 0 1 0 0 false true false false false 0 0 none)
        (Frame.mk 1000 ⟨100, 1, 0⟩ 0 false)).1.runs =
      (ScoreState.mk false 0 1 0 0 false true false false false 0 0 none).runs +
        (if (groundFragment (ScoreParams.mk 0 0 60 true 0 (3 / 250))
              (ScoreState.mk false 0 1 0 0 false true false false false 0 0 none)
              (Frame.mk 1000 ⟨100, 1, 0⟩ 0 false)).wasHitThisDelivery &&
            !(groundFragment (ScoreParams.mk 0 0 60 true 0 (3 / 250))
              (ScoreState.mk false 0 1 0 0 false true false false false 0 0 none)
              (Frame.mk 1000 ⟨100, 1, 0⟩ 0 false)).touchedGroundSinceHit then 6 else 4) :=
  ⟨⟨rfl, rfl, rfl, rfl, by norm_num,
    rfl, by norm_num [isInsideBoundary]⟩,
   (boundaryCrossing_award (ScoreParams.mk 0 0 60 true 0 (3 / 250))
      (ScoreState.mk false 0 1 0 0 false true false false false 0 0 none)
      (Frame.mk 1000 ⟨100, 1, 0⟩ 0 false) rfl rfl rfl rfl (by norm_num) rfl
      (by norm_num [isInsideBoundary])).1⟩

/-! ### Counting lemmas for per-delivery credit uniqueness -/

theorem terminalFragment_events (P : ScoreParams) (st : ScoreState) (age : ℚ) (p : Vec3) :
    (terminalFragment P st age p).2.countP isBoundaryEvent = 0 ∧
    (terminalFragment P st age p).1.boundaryScored = st.boundaryScored := by
  unfold terminalFragment
  split
  · dsimp only
    split <;> simp [isBoundaryEvent, addRuns] <;> split <;> simp
  · simp

theorem boundaryFragment_event_cases (P : ScoreParams) (st : ScoreState) (p : Vec3) :
    ((boundaryFragment P st p).2 = [] ∧
      (boundaryFragment P st p).1.boundaryScored = st.boundaryScored ∧
      (boundaryFragment P st p).1.runs = st.runs) ∨
    ((∃ n, (boundaryFragment P st p).2 = [ScoreEvent.boundary n]) ∧
      st.boundaryScored = false ∧ (boundaryFragment P st p).1.boundaryScored = true ∧
      ((boundaryFragment P st p).1.runs = st.runs ∨
        (boundaryFragment P st p).1.runs = st.runs + 4 ∨
        (boundaryFragment P st p).1.runs = st.runs + 6)) := by
  unfold boundaryFragment
  split
  case isTrue h =>
    have hsc : st.boundaryScored = false := by
      rcases Bool.and_eq_true_iff.1 h with ⟨h1, _⟩
      simpa using h1
    dsimp only
    split
    · right
      refine ⟨⟨_, rfl⟩, hsc, ?_, ?_⟩
      · simp [addRuns]; split <;> simp
      · unfold addRuns
        split
        · simp
        · split <;> simp
    · left; simp [hsc]
  case isFalse h => simp

theorem boundaryFragment_obs (P : ScoreParams) (st : ScoreState) (p : Vec3) :
    (boundaryFragment P st p).1.observerRemoved = st.observerRemoved := by
  unfold boundaryFragment
  split
  · dsimp only
    split
    · simp [addRuns]; split <;> simp
    · simp
  · simp

theorem terminalFragment_runs_cases (P : ScoreParams) (st : ScoreState) (age : ℚ) (p : Vec3) :
    (terminalFragment P st age p).1.runs = st.runs ∨
    ((terminalFragment P st age p).1.runs = st.runs + 1 ∧ st.boundaryScored = false) := by
  unfold terminalFragment
  split
  · dsimp only
    split
    case isTrue h =>
      right
      rcases Bool.and_eq_true_iff.1 h with ⟨h1, h2⟩
      rcases Bool.and_eq_true_iff.1 h1 with ⟨h3, _⟩
      refine ⟨?_, by simpa using h2⟩
      simp only [addRuns]
      rw [if_neg (by simp at h3; simp [h3])]
    case isFalse h => left; rfl
  · left; rfl

theorem terminalFragment_terminal_cases (P : ScoreParams) (st : ScoreState) (age : ℚ) (p : Vec3) :
    ((terminalFragment P st age p).2.countP isTerminalEvent = 0 ∧
      (terminalFragment P st age p).1.observerRemoved = st.observerRemoved) ∨
    ((terminalFragment P st age p).2.countP isTerminalEvent = 0 ∧
      (terminalFragment P st age p).1.observerRemoved = true) ∨
    ((terminalFragment P st age p).2.countP isTerminalEvent = 1 ∧
      (terminalFragment P st age p).1.observerRemoved = true) := by
  unfold terminalFragment
  split
  · dsimp only
    split
    · right; right; simp [isTerminalEvent]
    · right; left; simp
  · left; simp

/-- `setOut` preserves the scoring counters and per-delivery flags. -/
theorem setOut_preserves (st : ScoreState) :
    (setOut st).runs = st.runs ∧ (setOut st).boundaryScored = st.boundaryScored := by
  unfold setOut; split <;> simp

theorem applyHitContact_preserves (now : ℚ) (st : ScoreState) :
    (applyHitContact now st).runs = st.runs ∧
    (applyHitContact now st).boundaryScored = st.boundaryScored ∧
    (applyHitContact now st).observerRemoved = st.observerRemoved := by
  unfold applyHitContact; split <;> simp

/-- Per-operation boundary-credit characterisation: a non-deliver,
non-reset operation either emits no boundary event and leaves the
`boundaryScored` latch unchanged, or emits exactly one and flips the latch
from false to true. -/
theorem matchStep_boundary_cases (P : ScoreParams) (st : ScoreState) (op : MatchOp)
    (hd : op.isDeliver = false) (hr : op.isReset = false) :
    ((matchStep P st op).2.countP isBoundaryEvent = 0 ∧
      (matchStep P st op).1.boundaryScored = st.boundaryScored) ∨
    ((matchStep P st op).2.countP isBoundaryEvent = 1 ∧
      st.boundaryScored = false ∧ (matchStep P st op).1.boundaryScored = true) := by
  cases op with
  | reset => simp [MatchOp.isReset] at hr
  | deliver now release => simp [MatchOp.isDeliver] at hd
  | hitContact now =>
    left
    exact ⟨by simp [matchStep], by simp [matchStep, (applyHitContact_preserves now st).2.1]⟩
  | frame f =>
    simp only [matchStep]
    unfold deliveryTick
    split
    · left; simp
    · split
      · left; simp
      · dsimp only
        split
        · left; simp [(setOut_preserves st).2]
        · obtain ⟨hg1, hg2, hg3, hg4, hg5, hg6⟩ := groundFragment_preserves P st f
          obtain ⟨hte, hts⟩ := terminalFragment_events P
            (boundaryFragment P (groundFragment P st f) f.p).1
            ((f.nowMs - st.bornAt) / 1000) f.p
          rcases boundaryFragment_event_cases P (groundFragment P st f) f.p with
            ⟨he, hsc, _⟩ | ⟨⟨n, he⟩, hsc, hsc', _⟩
          · left
            constructor
            · simp [List.countP_append, he, hte]
            · rw [hts, hsc, hg3]
          · right
            refine ⟨?_, by rw [← hg3]; exact hsc, by rw [hts]; exact hsc'⟩
            simp [List.countP_append, he, hte, isBoundaryEvent]

/-- Per-operation terminal-credit characterisation. -/
theorem matchStep_terminal_cases (P : ScoreParams) (st : ScoreState) (op : MatchOp)
    (hd : op.isDeliver = false) (hr : op.isReset = false) :
    ((matchStep P st op).2.countP isTerminalEvent = 0) ∨
    ((matchStep P st op).2.countP isTerminalEvent = 1 ∧
      st.observerRemoved = false ∧ (matchStep P st op).1.observerRemoved = true) := by
  cases op with
  | reset => simp [MatchOp.isReset] at hr
  | deliver now release => simp [MatchOp.isDeliver] at hd
  | hitContact now => left; simp [matchStep]
  | frame f =>
    simp only [matchStep]
    unfold deliveryTick
    split
    · left; simp
    · split
      · left; simp
      · dsimp only
        split
        · left; simp
        · case isFalse hobs _ _ =>
          obtain ⟨hg1, hg2, hg3, hg4, hg5, hg6⟩ := groundFragment_preserves P st f
          have hbe : ∀ (e : ScoreEvent),
              e ∈ (boundaryFragment P (groundFragment P st f) f.p).2 →
                isTerminalEvent e = false := by
            rcases boundaryFragment_event_cases P (groundFragment P st f) f.p with
              ⟨he, _, _⟩ | ⟨⟨n, he⟩, _, _, _⟩ <;> rw [he] <;> intro e hm
            · simp at hm
            · simp at hm; rw [hm]; rfl
          have hcb : (boundaryFragment P (groundFragment P st f) f.p).2.countP
              isTerminalEvent = 0 := List.countP_eq_zero.2 (by
            intro e hm
            simp [hbe e hm])
          rcases terminalFragment_terminal_cases P
            (boundaryFragment P (groundFragment P st f) f.p).1
            ((f.nowMs - st.bornAt) / 1000) f.p with ⟨hc, _⟩ | ⟨hc, _⟩ | ⟨hc, hob⟩
          · left; simp [List.countP_append, hc, hcb]
          · left; simp [List.countP_append, hc, hcb]
          · right
            refine ⟨by simp [List.countP_append, hc, hcb], by simpa using hobs, hob⟩

/-- With the `boundaryScored` latch set, no further boundary event can be
emitted by any non-deliver, non-reset trace. -/
theorem matchRun_boundary_zero (P : ScoreParams) (ops : List MatchOp) :
    ∀ st : ScoreState, (∀ o ∈ ops, o.isDeliver = false ∧ o.isReset = false) →
      st.boundaryScored = true →
        (matchRun P st ops).2.countP isBoundaryEvent = 0 := by
  induction ops with
  | nil => intro st _ _; simp [matchRun]
  | cons op rest ih =>
    intro st hops hsc
    obtain ⟨hd, hr⟩ := hops op (by simp)
    have hrest : ∀ o ∈ rest, o.isDeliver = false ∧ o.isReset = false :=
      fun o hm => hops o (by simp [hm])
    rcases matchStep_boundary_cases P st op hd hr with ⟨hc, hpres⟩ | ⟨_, hfalse, _⟩
    · simp only [matchRun, List.countP_append]
      rw [hc, ih (matchStep P st op).1 hrest (by rw [hpres]; exact hsc)]
    · rw [hsc] at hfalse; exact absurd hfalse (by simp)

/-- At most one boundary event is emitted within one delivery (i.e. on any
trace free of `deliver`/`reset` operations). -/
theorem matchRun_boundary_le_one (P : ScoreParams) (ops : List MatchOp) :
    ∀ st : ScoreState, (∀ o ∈ ops, o.isDeliver = false ∧ o.isReset = false) →
      (matchRun P st ops).2.countP isBoundaryEvent ≤ 1 := by
  induction ops with
  | nil => intro st _; simp [matchRun]
  | cons op rest ih =>
    intro st hops
    obtain ⟨hd, hr⟩ := hops op (by simp)
    have hrest : ∀ o ∈ rest, o.isDeliver = false ∧ o.isReset = false :=
      fun o hm => hops o (by simp [hm])
    simp only [matchRun, List.countP_append]
    rcases matchStep_boundary_cases P st op hd hr with ⟨hc, _⟩ | ⟨hc, _, hpost⟩
    · rw [hc]; simpa using ih (matchStep P st op).1 hrest
    · rw [hc, matchRun_boundary_zero P rest (matchStep P st op).1 hrest hpost]

/-- Once the ball observer is removed, a non-deliver, non-reset trace emits
no terminal-run event. -/
theorem matchRun_terminal_zero (P : ScoreParams) (ops : List MatchOp) :
    ∀ st : ScoreState, (∀ o ∈ ops, o.isDeliver = false ∧ o.isReset = false) →
      st.observerRemoved = true →
        (matchRun P st ops).2.countP isTerminalEvent = 0 := by
  induction ops with
  | nil => intro st _ _; simp [matchRun]
  | cons op rest ih =>
    intro st hops hobs
    obtain ⟨hd, hr⟩ := hops op (by simp)
    have hrest : ∀ o ∈ rest, o.isDeliver = false ∧ o.isReset = false :=
      fun o hm => hops o (by simp [hm])
    have hstep : matchStep P st op = (st, []) ∨
        ((matchStep P st op).2 = [] ∧ (matchStep P st op).1.observerRemoved = true) := by
      cases op with
      | reset => simp [MatchOp.isReset] at hr
      | deliver now release => simp [MatchOp.isDeliver] at hd
      | hitContact now =>
        right
        exact ⟨by simp [matchStep], by
          simp [matchStep, (applyHitContact_preserves now st).2.2, hobs]⟩
      | frame f => left; simp [matchStep, deliveryTick, hobs]
    rcases hstep with hstep | ⟨he, hob⟩
    · simp only [matchRun, hstep, List.countP_append]
      rw [hstep] at *
      simpa using ih st hrest hobs
    · simp only [matchRun, List.countP_append, he]
      simpa using ih (matchStep P st op).1 hrest hob

/-- At most one terminal-run event is emitted within one delivery. -/
theorem matchRun_terminal_le_one (P : ScoreParams) (ops : List MatchOp) :
    ∀ st : ScoreState, (∀ o ∈ ops, o.isDeliver = false ∧ o.isReset = false) →
      (matchRun P st ops).2.countP isTerminalEvent ≤ 1 := by
  induction ops with
  | nil => intro st _; simp [matchRun]
  | cons op rest ih =>
    intro st hops
    obtain ⟨hd, hr⟩ := hops op (by simp)
    have hrest : ∀ o ∈ rest, o.isDeliver = false ∧ o.isReset = false :=
      fun o hm => hops o (by simp [hm])
    simp only [matchRun, List.countP_append]
    rcases matchStep_terminal_cases P st op hd hr with hc | ⟨hc, _, hpost⟩
    · rw [hc]; simpa using ih (matchStep P st op).1 hrest
    · rw [hc, matchRun_terminal_zero P rest (matchStep P st op).1 hrest hpost]

/-- The per-operation change of the runs counter: every non-reset operation
adds 0, 1, 4 or 6 runs. -/
theorem matchStep_runs_cases (P : ScoreParams) (st : ScoreState) (op : MatchOp)
    (hr : op.isReset = false) :
    (matchStep P st op).1.runs = st.runs ∨ (matchStep P st op).1.runs = st.runs + 1 ∨
    (matchStep P st op).1.runs = st.runs + 4 ∨ (matchStep P st op).1.runs = st.runs + 6 := by
  cases op with
  | reset => simp [MatchOp.isReset] at hr
  | deliver now release =>
    left; simp only [matchStep]; unfold deliverReset; split <;> simp
  | hitContact now =>
    left; simp [matchStep, (applyHitContact_preserves now st).1]
  | frame f =>
    simp only [matchStep]
    unfold deliveryTick
    split
    · left; simp
    · split
      · left; simp
      · dsimp only
        split
        · left; simp [(setOut_preserves st).1]
        · obtain ⟨hg1, hg2, hg3, hg4, hg5, hg6⟩ := groundFragment_preserves P st f
          rcases boundaryFragment_event_cases P (groundFragment P st f) f.p with
            ⟨_, hbs, hbr⟩ | ⟨_, _, hbs, hbr⟩
          · rcases terminalFragment_runs_cases P
              (boundaryFragment P (groundFragment P st f) f.p).1
              ((f.nowMs - st.bornAt) / 1000) f.p with ht | ⟨ht, _⟩
            · left; rw [ht, hbr, hg2]
            · right; left; rw [ht, hbr, hg2]
          · rcases terminalFragment_runs_cases P
              (boundaryFragment P (groundFragment P st f) f.p).1
              ((f.nowMs - st.bornAt) / 1000) f.p with ht | ⟨_, hcontra⟩
            · rcases hbr with hbr | hbr | hbr
              · left; rw [ht, hbr, hg2]
              · right; right; left; rw [ht, hbr, hg2]
              · right; right; right; rw [ht, hbr, hg2]
            · rw [hbs] at hcontra; exact absurd hcontra (by simp)

/-- C7: within a match the runs counter is monotonically non-decreasing
across every operation except the explicit reset (which returns it to 0):
each non-reset operation credits 0, 1, 4 or 6 runs (through `addRuns`,
always a positive amount when non-zero); and on any trace without a
`deliver`/`reset` (i.e. within one delivery) at most one boundary credit
and at most one terminal-run credit are issued, guarded by the
`boundaryScored` latch and the disposal of the ball observer. -/
theorem runs_monotonic_single_credits (P : ScoreParams) (st : ScoreState)
    (op : MatchOp) (ops : List MatchOp) (hop : op.isReset = false)
    (hops : ∀ o ∈ ops, o.isDeliver = false ∧ o.isReset = false) :
    st.runs ≤ (matchStep P st op).1.runs ∧
    ((matchStep P st op).1.runs = st.runs ∨ (matchStep P st op).1.runs = st.runs + 1 ∨
      (matchStep P st op).1.runs = st.runs + 4 ∨
      (matchStep P st op).1.runs = st.runs + 6) ∧
    (matchStep P st MatchOp.reset).1.runs = 0 ∧
    (matchRun P st ops).2.countP isBoundaryEvent ≤ 1 ∧
    (matchRun P st ops).2.countP isTerminalEvent ≤ 1 := by
  have hc := matchStep_runs_cases P st op hop
  refine ⟨?_, hc, by simp [matchStep, resetGame], ?_, ?_⟩
  · rcases hc with h | h | h | h <;> rw [h] <;> omega
  · exact matchRun_boundary_le_one P ops st hops
  · exact matchRun_terminal_le_one P ops st hops

/-- Witness for C7 at a concrete operation and trace. -/
theorem runs_monotonic_single_credits_witness :
    ((MatchOp.hitContact 500).isReset = false ∧
      (∀ o ∈ [MatchOp.frame (Frame.mk 1000 ⟨100, 1, 0⟩ 0 false)],
        o.isDeliver = false ∧ o.isReset = false)) ∧
    ((ScoreState.mk false 0 1 0 0 false true false false false 0 0 none).runs ≤
      (matchStep (ScoreParams.mk 0 0 60 true 0 (3 / 250))
        (ScoreState.mk false 0 1 0 0 false true false false false 0 0 none)
        (MatchOp.hitContact 500)).1.runs ∧
      ((matchStep (ScoreParams.mk 0 0 60 true 0 (3 / 250))
          (ScoreState.mk false 0 1 0 0 false true false false false 0 0 none)
          (MatchOp.hitContact 500)).1.runs =
          (ScoreState.mk false 0 1 0 0 false true false false false 0 0 none).runs ∨
        (matchStep (ScoreParams.mk 0 0 60 true 0 (3 / 250))
          (ScoreState.mk false 0 1 0 0 false true false false false 0 0 none)
          (MatchOp.hitContact 500)).1.runs =
          (ScoreState.mk false 0 1 0 0 false true false false false 0 0 none).runs + 1 ∨
        (matchStep (ScoreParams.mk 0 0 60 true 0 (3 / 250))
          (ScoreState.mk false 0 1 0 0 false true false false false 0 0 none)
          (MatchOp.hitContact 500)).1.runs =
          (ScoreState.mk false 0 1 0 0 false true false false false 0 0 none).runs + 4 ∨
        (matchStep (ScoreParams.mk 0 0 60 true 0 (3 / 250))
          (ScoreState.mk false 0 1 0 0 false true false false false 0 0 none)
          (MatchOp.hitContact 500)).1.runs =
          (ScoreState.mk false 0 1 0 0 false true false false false 0 0 none).runs + 6) ∧
      (matchStep (ScoreParams.mk 0 0 60 true 0 (3 / 250))
        (ScoreState.mk false 0 1 0 0 false true false false false 0 0 none)
        MatchOp.reset).1.runs = 0 ∧
      (matchRun (ScoreParams.mk 0 0 60 true 0 (3 / 250))
        (ScoreState.mk false 0 1 0 0 false true false false false 0 0 none)
        [MatchOp.frame (Frame.mk 1000 ⟨100, 1, 0⟩ 0 false)]).2.countP isBoundaryEvent ≤ 1 ∧
      (matchRun (ScoreParams.mk 0 0 60 true 0 (3 / 250))
        (ScoreState.mk false 0 1 0 0 false true false false false 0 0 none)
        [MatchOp.frame (Frame.mk 1000 ⟨100, 1, 0⟩ 0 false)]).2.countP isTerminalEvent ≤ 1) :=
  ⟨⟨rfl, by intro o hm; simp at hm; subst hm; exact ⟨rfl, rfl⟩⟩,
   runs_monotonic_single_credits (ScoreParams.mk 0 0 60 true 0 (3 / 250))
     (ScoreState.mk false 0 1 0 0 false true false false false 0 0 none)
     (MatchOp.hitContact 500) [MatchOp.frame (Frame.mk 1000 ⟨100, 1, 0⟩ 0 false)] rfl
     (by intro o hm; simp at hm; subst hm; exact ⟨rfl, rfl⟩)⟩

/-! ### C10: disabled boundary scoring -/

/-- C10: if no boundary mesh is found at load time, `boundaryRadius` is 0
(or non-finite) and `isInsideBoundary` returns true for every point, so no
inside-to-outside transition is ever detected; moreover the per-frame
boundary check is skipped whenever `boundaryRadius ≤ 0.01`, so the boundary
fragment is the identity and no 4/6 boundary award is ever emitted for the
remainder of the match, whatever operations occur. -/
theorem boundary_disabled_no_awards (P : ScoreParams) (st : ScoreState)
    (ops : List MatchOp) (hz : P.boundaryRadius = 0 ∨ P.radiusFinite = false)
    (hr : P.boundaryRadius ≤ 1 / 100) :
    (∀ p : Vec3, isInsideBoundary P p = true) ∧
    (∀ (st' : ScoreState) (p' : Vec3), boundaryFragment P st' p' = (st', [])) ∧
    (matchRun P st ops).2.countP isBoundaryEvent = 0 := by
  have hfrag : ∀ (st' : ScoreState) (p' : Vec3), boundaryFragment P st' p' = (st', []) := by
    intro st' p'
    have hdec : decide ((1 : ℚ) / 100 < P.boundaryRadius) = false :=
      decide_eq_false (not_lt.mpr hr)
    unfold boundaryFragment
    rw [hdec]
    simp
  refine ⟨?_, hfrag, ?_⟩
  · intro p
    rcases hz with h | h <;> simp [isInsideBoundary, h]
  · induction ops generalizing st with
    | nil => simp [matchRun]
    | cons op rest ih =>
      have hstep : (matchStep P st op).2.countP isBoundaryEvent = 0 := by
        cases op with
        | reset => simp [matchStep]
        | deliver now release => simp [matchStep]
        | hitContact now => simp [matchStep]
        | frame f =>
          simp only [matchStep]
          unfold deliveryTick
          split
          · simp
          · split
            · simp
            · dsimp only
              split
              · simp
              · rw [hfrag (groundFragment P st f) f.p]
                obtain ⟨hte, _⟩ := terminalFragment_events P (groundFragment P st f)
                  ((f.nowMs - st.bornAt) / 1000) f.p
                simpa using hte
      simp only [matchRun, List.countP_append]
      rw [hstep, ih]

/-- Witness for C10 with radius 0 (no boundary mesh found). -/
theorem boundary_disabled_no_awards_witness :
    (((ScoreParams.mk 0 0 0 true 0 (3 / 250)).boundaryRadius = 0 ∨
        (ScoreParams.mk 0 0 0 true 0 (3 / 250)).radiusFinite = false) ∧
      (ScoreParams.mk 0 0 0 true 0 (3 / 250)).boundaryRadius ≤ 1 / 100) ∧
    ((∀ p : Vec3, isInsideBoundary (ScoreParams.mk 0 0 0 true 0 (3 / 250)) p = true) ∧
      (∀ (st' : ScoreState) (p' : Vec3),
        boundaryFragment (ScoreParams.mk 0 0 0 true 0 (3 / 250)) st' p' = (st', [])) ∧
      (matchRun (ScoreParams.mk 0 0 0 true 0 (3 / 250))
        (ScoreState.mk false 0 1 0 0 false true false false false 0 0 none)
        [MatchOp.frame (Frame.mk 1000 ⟨100, 1, 0⟩ 0 false)]).2.countP isBoundaryEvent = 0) :=
  ⟨⟨Or.inl rfl, by norm_num⟩,
   boundary_disabled_no_awards (ScoreParams.mk 0 0 0 true 0 (3 / 250))
     (ScoreState.mk false 0 1 0 0 false true false false false 0 0 none)
     [MatchOp.frame (Frame.mk 1000 ⟨100, 1, 0⟩ 0 false)] (Or.inl rfl) (by norm_num)⟩

/-! ## Bat contact: swing gesture and miss detection
(game2.ts 1584-1630, GameBackup.ts 1972-2017)

Pointer-down handler:
```
this.isSwinging = true;
this.swingStartedAt = performance.now();
this.swingUntil = performance.now() + 160;
this.swingConsumedHit = false;
this.pendingMissForThisSwing = !!this.activeBall && !this.wasHitThisDelivery;
```
Per-frame expiry check:
```
if (this.isSwinging && now > this.swingUntil) {
  this.isSwinging = false;
  if (!this.gameOver && this.pendingMissForThisSwing && !this.swingConsumedHit) {
    this.misses += 1; ...
  }
  this.pendingMissForThisSwing = false;
}
```
-/

/-- Bat-model state relevant to swing/miss accounting. -/
structure BatState where
  gameOver : Bool
  isSwinging : Bool
  swingUntil : ℚ
  swingConsumedHit : Bool
  pendingMissForThisSwing : Bool
  misses : ℕ
  runs : ℕ
deriving DecidableEq

/-- The pointer-down (button 0) handler of `setupBat3D`; the whole pointer
observer is gated on `gameOver`.  `activeBallExists` is whether a live ball
exists; `wasHitThisDelivery` whether it has already been hit. -/
def pointerDown (now : ℚ) (activeBallExists wasHitThisDelivery : Bool)
    (st : BatState) : BatState :=
  if st.gameOver then st
  else
    { st with
      isSwinging := true,
      swingUntil := now + 160,
      swingConsumedHit := false,
      pendingMissForThisSwing := activeBallExists && !wasHitThisDelivery }

/-- The swing-window expiry check at the top of the bat observer's frame
callback. -/
def swingExpiryTick (now : ℚ) (st : BatState) : BatState :=
  if st.isSwinging && decide (st.swingUntil < now) then
    let st1 := { st with isSwinging := false }
    let st2 :=
      if !st1.gameOver && st1.pendingMissForThisSwing && !st1.swingConsumedHit then
        { st1 with misses := st1.misses + 1 }
      else st1
    { st2 with pendingMissForThisSwing := false }
  else st

/-- C8: for every swing gesture started (pointer down) while a live ball
exists that has not yet been hit this delivery, if the 160 ms swing window
expires without a contact being consumed (and the match is still live),
exactly one miss is recorded — `misses` is incremented by 1 by the first
expiry tick, the runs counter is unchanged, and every later expiry tick
leaves `misses` unchanged. -/
theorem swingExpiry_miss (st : BatState) (pressAt expireAt : ℚ)
    (hgo : st.gameOver = false) (hwin : pressAt + 160 < expireAt) :
    (swingExpiryTick expireAt (pointerDown pressAt true false st)).misses =
      st.misses + 1 ∧
    (swingExpiryTick expireAt (pointerDown pressAt true false st)).runs = st.runs ∧
    (∀ later : ℚ,
      (swingExpiryTick later
        (swingExpiryTick expireAt (pointerDown pressAt true false st))).misses =
      (swingExpiryTick expireAt (pointerDown pressAt true false st)).misses) ∧
    (∀ early : ℚ, early ≤ pressAt + 160 →
      swingExpiryTick early (pointerDown pressAt true false st) =
        pointerDown pressAt true false st) := by
  have hpd : pointerDown pressAt true false st =
      { st with isSwinging := true, swingUntil := pressAt + 160, swingConsumedHit := false, pendingMissForThisSwing := true } := by
    unfold pointerDown
    rw [hgo]
    simp
  have hexp : swingExpiryTick expireAt (pointerDown pressAt true false st) =
      { st with isSwinging := false, swingUntil := pressAt + 160, swingConsumedHit := false, pendingMissForThisSwing := false, misses := st.misses + 1 } := by
    rw [hpd]
    unfold swingExpiryTick
    rw [decide_eq_true hwin]
    simp [hgo]
  refine ⟨by rw [hexp], by rw [hexp], ?_, ?_⟩
  · intro later
    rw [hexp]
    unfold swingExpiryTick
    simp
  · intro early hearly
    rw [hpd]
    unfold swingExpiryTick
    rw [decide_eq_false (not_lt.mpr hearly)]
    simp

/-- Witness for C8 at concrete times. -/
theorem swingExpiry_miss_witness :
    ((BatState.mk false false 0 false false 2 7).gameOver = false ∧
      (1000 : ℚ) + 160 < 1200) ∧
    (swingExpiryTick 1200 (pointerDown 1000 true false
        (BatState.mk false false 0 false false 2 7))).misses =
      (BatState.mk false false 0 false false 2 7).misses + 1 ∧
    (swingExpiryTick 1200 (pointerDown 1000 true false
        (BatState.mk false false 0 false false 2 7))).runs =
      (BatState.mk false false 0 false false 2 7).runs :=
  ⟨⟨rfl, by norm_num⟩,
   (swingExpiry_miss (BatState.mk false false 0 false false 2 7) 1000 1200
      rfl (by norm_num)).1,
   (swingExpiry_miss (BatState.mk false false 0 false false 2 7) 1000 1200
      rfl (by norm_num)).2.1⟩

/-! ## Anchor loading (game2.ts `getPoint` 2113-2125, `setupBat3D` 1553-1577)

`getPoint` throws a hard error for a missing scene anchor; the bat-blade
anchors `BatL`/`BatR`/`BatStart` are looked up by `findTNInBat`, which
returns null on a miss, and `setupBat3D` merely logs
`console.warn("[bat2.glb] Missing empties. ...")` and proceeds. -/

/-- The named nodes available in a loaded asset: transform nodes (exact
lookup) and other nodes carrying a position (wrapped on lookup). -/
structure SceneModel where
  transformNodes : List String
  positionNodes : List String
deriving DecidableEq

/-- `getPoint(scene, name)` (game2.ts 2113-2125): returns the transform
node, wraps a positioned node, or throws
`Missing required point "<name>" in GLB`. -/
def getPoint (scene : SceneModel) (name : String) : Except String String :=
  if scene.transformNodes.contains name then Except.ok name
  else if scene.positionNodes.contains name then Except.ok (name ++ "_wrap")
  else Except.error ("Missing required point " ++ name ++ " in GLB")

/-- The ten required scene anchors grabbed by `createScene`
(game2.ts 1385-1396), in source order. -/
def requiredAnchorNames : List String :=
  ["BallRelease", "BatsmanPoint", "WicketTarget", "PitchStart", "PitchEnd",
   "PitchL", "PitchR", "BounceGood", "BounceYorker", "OffStump"]

/-- Sequential anchor loading: fails with `getPoint`'s error on the first
missing name. -/
def loadPoints (scene : SceneModel) : List String → Except String (List String)
  | [] => Except.ok []
  | n :: rest =>
    (getPoint scene n).bind fun v => (loadPoints scene rest).map fun vs => v :: vs

/-- The anchor-loading part of `createScene`. -/
def loadRequiredPoints (scene : SceneModel) : Except String (List String) :=
  loadPoints scene requiredAnchorNames

/-- `findTNInBat(name)` (game2.ts 1553-1568): exact transform-node lookup,
then positioned-node fallback, else null. -/
def findTNInBat (bat : SceneModel) (name : String) : Option String :=
  if bat.transformNodes.contains name then some name
  else if bat.positionNodes.contains name then some (name ++ "_wrap") else none

/-- The bat-anchor lookup of `setupBat3D` (game2.ts 1570-1577): returns the
three optional anchors and whether the missing-empties warning was logged;
it never fails. -/
def setupBatAnchors (bat : SceneModel) :
    (Option String × Option String × Option String) × Bool :=
  let l := findTNInBat bat "BatL"
  let r := findTNInBat bat "BatR"
  let s := findTNInBat bat "BatStart"
  ((l, r, s), l.isNone || r.isNone || s.isNone)

/-- The load sequence relevant to C9: scene anchors through `getPoint`
(hard failure), then `setupBat3D`'s bat anchors (warning only). -/
def createSceneLoad (scene bat : SceneModel) :
    Except String (List String × ((Option String × Option String × Option String) × Bool)) :=
  (loadRequiredPoints scene).bind fun pts => Except.ok (pts, setupBatAnchors bat)

/-- C9 counterexample: with every scene anchor present but the bat asset
missing `BatL`, `BatR` and `BatStart` entirely, loading succeeds (no
exception is raised; only the warning flag is set), contradicting the claim
that a missing bat-blade anchor is a fatal load-time error. -/
theorem missing_bat_anchor_not_fatal :
    (findTNInBat (SceneModel.mk [] []) "BatL").isNone = true ∧
    (createSceneLoad (SceneModel.mk requiredAnchorNames []) (SceneModel.mk [] [])).isOk
      = true ∧
    (setupBatAnchors (SceneModel.mk [] [])).2 = true := by
  exact ⟨rfl, rfl, rfl⟩

/-- If sequential loading succeeds, every listed anchor resolved. -/
theorem loadPoints_ok_mem (scene : SceneModel) :
    ∀ names : List String, (loadPoints scene names).isOk = true →
      ∀ n ∈ names, (getPoint scene n).isOk = true := by
  intro names
  induction names with
  | nil => intro _ n hn; simp at hn
  | cons m rest ih =>
    intro hok n hn
    unfold loadPoints at hok
    cases hg : getPoint scene m with
    | error e => rw [hg] at hok; simp [Except.bind, Except.isOk, Except.toBool] at hok
    | ok v =>
      rw [hg] at hok
      rcases List.mem_cons.1 hn with rfl | hn'
      · rw [hg]; rfl
      · apply ih _ n hn'
        cases hl : loadPoints scene rest with
        | error e =>
          rw [hl] at hok
          simp [Except.bind, Except.map, Except.isOk, Except.toBool] at hok
        | ok vs => rfl

/-- C9 (amended): each of the ten required scene anchors (BallRelease,
BatsmanPoint, WicketTarget, PitchStart/End/L/R, BounceGood, BounceYorker,
OffStump) is loaded through `getPoint`, so if any of them is absent from
the loaded asset (neither a transform node nor a positioned node of that
name), loading fails immediately with a hard error; the bat-blade anchors
BatL, BatR, BatStart are NOT fatal: when they are absent, `setupBat3D`
records the missing-empties warning and loading proceeds successfully. -/
theorem anchor_loading_errors (scene bat : SceneModel) (name : String)
    (hmem : name ∈ requiredAnchorNames)
    (htn : scene.transformNodes.contains name = false)
    (hpn : scene.positionNodes.contains name = false) :
    (loadRequiredPoints scene).isOk = false ∧
    (createSceneLoad scene bat).isOk = false ∧
    (∀ scene' bat' : SceneModel, (loadRequiredPoints scene').isOk = true →
      (createSceneLoad scene' bat').isOk = true) ∧
    (bat.transformNodes.contains "BatL" = false →
      bat.positionNodes.contains "BatL" = false →
        (setupBatAnchors bat).2 = true) := by
  have hgp : (getPoint scene name).isOk = false := by
    unfold getPoint
    rw [htn, hpn]
    simp [Except.isOk, Except.toBool]
  have hload : (loadRequiredPoints scene).isOk = false := by
    cases hok : (loadRequiredPoints scene).isOk
    · rfl
    · exact absurd (loadPoints_ok_mem scene requiredAnchorNames hok name hmem)
        (by rw [hgp]; simp)
  refine ⟨hload, ?_, ?_, ?_⟩
  · unfold createSceneLoad
    cases hl : loadRequiredPoints scene with
    | error e => simp [Except.bind, Except.isOk, Except.toBool]
    | ok vs => rw [hl] at hload; simp [Except.isOk, Except.toBool] at hload
  · intro scene' bat' hok
    unfold createSceneLoad
    cases hl : loadRequiredPoints scene' with
    | error e => rw [hl] at hok; simp [Except.isOk, Except.toBool] at hok
    | ok vs => simp [Except.bind, Except.isOk, Except.toBool]
  · intro h1 h2
    unfold setupBatAnchors findTNInBat
    rw [h1, h2]
    simp

/-- Witness for C9's amended theorem: a scene missing `OffStump`. -/
theorem anchor_loading_errors_witness :
    (("OffStump" : String) ∈ requiredAnchorNames ∧
      (SceneModel.mk ["BallRelease", "BatsmanPoint", "WicketTarget", "PitchStart",
        "PitchEnd", "PitchL", "PitchR", "BounceGood", "BounceYorker"]
        []).transformNodes.contains "OffStump" = false ∧
      (SceneModel.mk ["BallRelease", "BatsmanPoint", "WicketTarget", "PitchStart",
        "PitchEnd", "PitchL", "PitchR", "BounceGood", "BounceYorker"]
        []).positionNodes.contains "OffStump" = false) ∧
    (loadRequiredPoints (SceneModel.mk ["BallRelease", "BatsmanPoint", "WicketTarget",
      "PitchStart", "PitchEnd", "PitchL", "PitchR", "BounceGood", "BounceYorker"]
      [])).isOk = false :=
  ⟨⟨by simp [requiredAnchorNames], by simp, by simp⟩,
   (anchor_loading_errors (SceneModel.mk ["BallRelease", "BatsmanPoint", "WicketTarget",
      "PitchStart", "PitchEnd", "PitchL", "PitchR", "BounceGood", "BounceYorker"]
      []) (SceneModel.mk [] []) "OffStump" (by simp [requiredAnchorNames])
      (by simp) (by simp)).1⟩

end PovCricket
